import Mathlib

/-!
Verification of `extract_to_csv.py`: a one-shot converter from a JSON
conference-data export to three CSV files (sessions.csv, speakers.csv,
session_speakers.csv).

The embedding models:
  - JSON values (`Json`) and Python runtime errors (`PyError`);
  - Python dict subscription (`Json.index`, raising KeyError),
    `dict.get` with default (`pyGet`), truthiness (`Json.truthy`),
    iteration (`Json.toIter`), `str.join` (`pyJoin` / `joinWith`) and
    `str.split` (`pySplit`);
  - the three extractor functions (`extract_sessions`, `extract_speakers`,
    `extract_session_speakers`) exactly as the source builds each flat
    record (a `List (String × Json)` in field order);
  - `write_csv` on top of `csv.DictWriter` semantics for the excel
    dialect: header row, one line per record terminated by CRLF,
    minimal quoting, `restval` of empty string substituted for fields
    missing from a record, and a ValueError raised when a record holds
    a field outside the field list;
  - `main`'s orchestration (`runMain`) over an abstract file system,
    including the metadata summary step that precedes all extraction.
-/

/-- Python runtime errors that the script can raise. -/
inductive PyError where
  | keyError (key : String)
  | typeError (msg : String)
  | valueError (msg : String)
  deriving DecidableEq, Repr

/-- JSON values, the parsed form of the input document. -/
inductive Json where
  | null
  | bool (b : Bool)
  | num (n : Int)
  | str (s : String)
  | arr (elts : List Json)
  | obj (entries : List (String × Json))

/-- A flat record: Python dict from field name to value, in insertion order. -/
abbrev FlatRec := List (String × Json)

/-- Python truthiness of a JSON value. -/
def Json.truthy : Json → Bool
  | .null => false
  | .bool b => b
  | .num n => n != 0
  | .str s => s != ""
  | .arr elts => !elts.isEmpty
  | .obj entries => !entries.isEmpty

/-- Python subscription `value[key]`: KeyError when a dict lacks the key,
TypeError when the value is not a dict. -/
def Json.index (j : Json) (k : String) : Except PyError Json :=
  match j with
  | .obj entries =>
    match entries.lookup k with
    | some v => .ok v
    | none => .error (.keyError k)
  | _ => .error (.typeError "value is not subscriptable by string key")

/-- Python `value.get(key, default)`: only dicts have `.get`. -/
def pyGet (j : Json) (k : String) (dflt : Json) : Except PyError Json :=
  match j with
  | .obj entries => .ok ((entries.lookup k).getD dflt)
  | _ => .error (.typeError "value has no attribute get")

/-- Python iteration over a value: lists yield elements, strings yield
one-character strings, dicts yield their keys; other values raise. -/
def Json.toIter : Json → Except PyError (List Json)
  | .arr elts => .ok elts
  | .str s => .ok (s.data.map fun c => .str (String.mk [c]))
  | .obj entries => .ok (entries.map fun kv => .str kv.1)
  | _ => .error (.typeError "value is not iterable")

/-- `sep.join` over an already-collected list of strings. -/
def joinWith (sep : String) : List String → String
  | [] => ""
  | [x] => x
  | x :: y :: xs => x ++ sep ++ joinWith sep (y :: xs)

/-- `str.join` checks each item of the iterable: every item must be a
string, otherwise a TypeError is raised. -/
def strItems : List Json → Except PyError (List String)
  | [] => .ok []
  | x :: xs =>
    match x with
    | .str s =>
      match strItems xs with
      | .error e => .error e
      | .ok ss => .ok (s :: ss)
    | _ => .error (.typeError "sequence item: expected str instance")

/-- Python `sep.join(value)`: iterates the value, checks the items are
strings, and concatenates them with the separator between items. -/
def pyJoin (sep : String) (j : Json) : Except PyError String :=
  match j.toIter with
  | .error e => .error e
  | .ok items =>
    match strItems items with
    | .error e => .error e
    | .ok strs => .ok (joinWith sep strs)

/-- Python `s.split(sep)` for a one-character separator, over char lists:
splitting the empty string yields one empty group. -/
def splitChars (sep : Char) : List Char → List (List Char)
  | [] => [[]]
  | c :: rest =>
    if c = sep then [] :: splitChars sep rest
    else
      match splitChars sep rest with
      | [] => [[c]]
      | g :: gs => (c :: g) :: gs

/-- Python `s.split(sep)` for a one-character separator. -/
def pySplit (sep : Char) (s : String) : List String :=
  (splitChars sep s.data).map fun cs => String.mk cs

/-- A single quote character, used by the Python `repr` of strings. -/
def squote : String := String.mk [Char.ofNat 39]

mutual

/-- Python `str(value)` for a JSON value. -/
def Json.pyStr : Json → String
  | .null => "None"
  | .bool b => if b then "True" else "False"
  | .num n => toString n
  | .str s => s
  | .arr elts => "[" ++ joinWith ", " (pyReprList elts) ++ "]"
  | .obj entries => "\x7b" ++ joinWith ", " (pyReprEntries entries) ++ "\x7d"

/-- Python `repr(value)` for a JSON value (strings gain quotes). -/
def Json.pyRepr : Json → String
  | .null => "None"
  | .bool b => if b then "True" else "False"
  | .num n => toString n
  | .str s => squote ++ s ++ squote
  | .arr elts => "[" ++ joinWith ", " (pyReprList elts) ++ "]"
  | .obj entries => "\x7b" ++ joinWith ", " (pyReprEntries entries) ++ "\x7d"

/-- `repr` of each element of a list. -/
def pyReprList : List Json → List String
  | [] => []
  | x :: xs => x.pyRepr :: pyReprList xs

/-- `repr` of each key-value entry of a dict. -/
def pyReprEntries : List (String × Json) → List String
  | [] => []
  | (k, v) :: rest => (squote ++ k ++ squote ++ ": " ++ v.pyRepr) :: pyReprEntries rest

end

/-- How Python's csv writer renders one cell value: `None` becomes the
empty string, any other value is rendered with `str()`. -/
def cellStr : Json → String
  | .null => ""
  | v => v.pyStr

/-- The `tags` entry of a session's flat record:
`'|'.join(session.get('tags', [])) if session.get('tags') else ''`. -/
def sessionTags (session : Json) : Except PyError Json :=
  match pyGet session "tags" .null with
  | .error e => .error e
  | .ok cond =>
    if cond.truthy then
      match pyGet session "tags" (.arr []) with
      | .error e => .error e
      | .ok t =>
        match pyJoin "|" t with
        | .error e => .error e
        | .ok s => .ok (.str s)
    else .ok (.str "")

/-- The `expertise` entry of a speaker's flat record:
`'|'.join(speaker.get('expertise', [])) if speaker.get('expertise') else ''`. -/
def speakerJoined (key : String) (speaker : Json) : Except PyError Json :=
  match pyGet speaker key .null with
  | .error e => .error e
  | .ok cond =>
    if cond.truthy then
      match pyGet speaker key (.arr []) with
      | .error e => .error e
      | .ok t =>
        match pyJoin "|" t with
        | .error e => .error e
        | .ok s => .ok (.str s)
    else .ok (.str "")

/-- One iteration of the loop body of `extract_sessions`: builds the
12-entry flat record for one session, evaluating the dict literal's
value expressions in source order. -/
def extractSessionOne (session : Json) : Except PyError FlatRec :=
  match session.index "id" with
  | .error e => .error e
  | .ok vid =>
  match session.index "title" with
  | .error e => .error e
  | .ok vtitle =>
  match pyGet session "description" (.str "") with
  | .error e => .error e
  | .ok vdesc =>
  match session.index "startTime" with
  | .error e => .error e
  | .ok vstart =>
  match session.index "endTime" with
  | .error e => .error e
  | .ok vend =>
  match pyGet session "location" (.str "") with
  | .error e => .error e
  | .ok vloc =>
  match pyGet session "track" (.str "") with
  | .error e => .error e
  | .ok vtrack =>
  match pyGet session "level" (.str "") with
  | .error e => .error e
  | .ok vlevel =>
  match sessionTags session with
  | .error e => .error e
  | .ok vtags =>
  match pyGet session "sourceUrl" (.str "") with
  | .error e => .error e
  | .ok vsrc =>
  match pyGet session "lastUpdated" (.str "") with
  | .error e => .error e
  | .ok vupd =>
  match session.index "createdAt" with
  | .error e => .error e
  | .ok vcreated =>
    .ok [("id", vid), ("title", vtitle), ("description", vdesc),
         ("startTime", vstart), ("endTime", vend), ("location", vloc),
         ("track", vtrack), ("level", vlevel), ("tags", vtags),
         ("sourceUrl", vsrc), ("lastUpdated", vupd), ("createdAt", vcreated)]

/-- One iteration of the loop body of `extract_speakers`: the 15-entry
flat record for one speaker. -/
def extractSpeakerOne (speaker : Json) : Except PyError FlatRec :=
  match speaker.index "id" with
  | .error e => .error e
  | .ok vid =>
  match speaker.index "name" with
  | .error e => .error e
  | .ok vname =>
  match pyGet speaker "bio" (.str "") with
  | .error e => .error e
  | .ok vbio =>
  match pyGet speaker "company" (.str "") with
  | .error e => .error e
  | .ok vcompany =>
  match pyGet speaker "role" (.str "") with
  | .error e => .error e
  | .ok vrole =>
  match pyGet speaker "imageUrl" (.str "") with
  | .error e => .error e
  | .ok vimage =>
  match pyGet speaker "linkedinUrl" (.str "") with
  | .error e => .error e
  | .ok vlinkedin =>
  match pyGet speaker "twitterUrl" (.str "") with
  | .error e => .error e
  | .ok vtwitter =>
  match pyGet speaker "websiteUrl" (.str "") with
  | .error e => .error e
  | .ok vwebsite =>
  match pyGet speaker "profileSummary" (.str "") with
  | .error e => .error e
  | .ok vsummary =>
  match pyGet speaker "companyProfile" (.str "") with
  | .error e => .error e
  | .ok vprofile =>
  match speakerJoined "expertise" speaker with
  | .error e => .error e
  | .ok vexpertise =>
  match speakerJoined "achievements" speaker with
  | .error e => .error e
  | .ok vachievements =>
  match pyGet speaker "lastProfileSync" (.str "") with
  | .error e => .error e
  | .ok vsync =>
  match speaker.index "createdAt" with
  | .error e => .error e
  | .ok vcreated =>
    .ok [("id", vid), ("name", vname), ("bio", vbio), ("company", vcompany),
         ("role", vrole), ("imageUrl", vimage), ("linkedinUrl", vlinkedin),
         ("twitterUrl", vtwitter), ("websiteUrl", vwebsite),
         ("profileSummary", vsummary), ("companyProfile", vprofile),
         ("expertise", vexpertise), ("achievements", vachievements),
         ("lastProfileSync", vsync), ("createdAt", vcreated)]

/-- One iteration of the loop body of `extract_session_speakers`. -/
def extractRelOne (rel : Json) : Except PyError FlatRec :=
  match rel.index "sessionId" with
  | .error e => .error e
  | .ok vsession =>
  match rel.index "speakerId" with
  | .error e => .error e
  | .ok vspeaker =>
    .ok [("sessionId", vsession), ("speakerId", vspeaker)]

/-- The `for ... in ...: list.append(...)` loop: sequential map that
stops at the first error, preserving input order. -/
def mapExtract (f : Json → Except PyError FlatRec) :
    List Json → Except PyError (List FlatRec)
  | [] => .ok []
  | x :: xs =>
    match f x with
    | .error e => .error e
    | .ok r =>
      match mapExtract f xs with
      | .error e => .error e
      | .ok rs => .ok (r :: rs)

/-- `extract_sessions(data)`: walks `data['data']['sessions']`. -/
def extract_sessions (data : Json) : Except PyError (List FlatRec) :=
  match data.index "data" with
  | .error e => .error e
  | .ok d =>
  match d.index "sessions" with
  | .error e => .error e
  | .ok ss =>
  match ss.toIter with
  | .error e => .error e
  | .ok items => mapExtract extractSessionOne items

/-- `extract_speakers(data)`: walks `data['data']['speakers']`. -/
def extract_speakers (data : Json) : Except PyError (List FlatRec) :=
  match data.index "data" with
  | .error e => .error e
  | .ok d =>
  match d.index "speakers" with
  | .error e => .error e
  | .ok ss =>
  match ss.toIter with
  | .error e => .error e
  | .ok items => mapExtract extractSpeakerOne items

/-- `extract_session_speakers(data)`: walks `data['data']['sessionSpeakers']`. -/
def extract_session_speakers (data : Json) : Except PyError (List FlatRec) :=
  match data.index "data" with
  | .error e => .error e
  | .ok d =>
  match d.index "sessionSpeakers" with
  | .error e => .error e
  | .ok ss =>
  match ss.toIter with
  | .error e => .error e
  | .ok items => mapExtract extractRelOne items

/-- Does a cell need quoting under the excel dialect's minimal quoting:
it contains the delimiter, the quote character, or a line-terminator char. -/
def needsQuote (s : String) : Bool :=
  s.data.any fun c => c = ',' || c = '"' || c = '\r' || c = '\n'

/-- Double every quote character in a cell. -/
def doubleQuotes (s : String) : String :=
  String.mk (s.data.flatMap fun c => if c = '"' then ['"', '"'] else [c])

/-- Render one cell: quoted (with embedded quotes doubled) when needed. -/
def csvQuote (s : String) : String :=
  if needsQuote s then "\"" ++ doubleQuotes s ++ "\"" else s

/-- Render one CSV line: cells joined by comma, terminated by CRLF
(the csv module's default line terminator). -/
def csvLine (cells : List String) : String :=
  joinWith "," (cells.map csvQuote) ++ "\r\n"

/-- `DictWriter._dict_to_list` value selection: for each field name in
order, the record's value if present (None rendering as empty), else the
default `restval`, which is the empty string. -/
def rowCells (fieldnames : List String) (r : FlatRec) : List String :=
  fieldnames.map fun k => cellStr ((r.lookup k).getD (.str ""))

/-- The record fields that fall outside the field list; `DictWriter`
with the default `extrasaction` raises a ValueError when any exist. -/
def wrongFields (fieldnames : List String) (r : FlatRec) : List String :=
  (r.map Prod.fst).filter fun k => !fieldnames.contains k

/-- `writer.writerows`: writes rows one at a time; returns the text
written so far together with the error, if a row had extra fields. -/
def writeRows (fieldnames : List String) :
    List FlatRec → String × Option PyError
  | [] => ("", none)
  | r :: rs =>
    if (wrongFields fieldnames r).isEmpty then
      let rest := writeRows fieldnames rs
      (csvLine (rowCells fieldnames r) ++ rest.1, rest.2)
    else ("", some (.valueError "dict contains fields not in fieldnames"))

/-- `write_csv(filename, data, fieldnames)` as the file content produced:
the file is opened for writing (truncated), the header row is written,
then each record; the error, if any, is raised after the prefix of rows
before the offending one has been written. -/
def write_csv (fieldnames : List String) (records : List FlatRec) :
    String × Option PyError :=
  let body := writeRows fieldnames records
  (csvLine fieldnames ++ body.1, body.2)

/-- The `session_fields` list of `main`. -/
def session_fields : List String :=
  ["id", "title", "description", "startTime", "endTime",
   "location", "track", "level", "tags", "sourceUrl",
   "lastUpdated", "createdAt"]

/-- The `speaker_fields` list of `main`. -/
def speaker_fields : List String :=
  ["id", "name", "bio", "company", "role", "imageUrl",
   "linkedinUrl", "twitterUrl", "websiteUrl", "profileSummary",
   "companyProfile", "expertise", "achievements",
   "lastProfileSync", "createdAt"]

/-- The `relationship_fields` list of `main`. -/
def relationship_fields : List String :=
  ["sessionId", "speakerId"]

/-- The compiled-in output directory constant of `main`. -/
def output_dir : String :=
  "/Users/andrewbartels/Projects/my-itcAI-project/itc-conference-app/itc-conference-app/data/csv_exports"

/-- `os.path.join(output_dir, 'sessions.csv')`. -/
def sessionsPath : String := output_dir ++ "/sessions.csv"

/-- `os.path.join(output_dir, 'speakers.csv')`. -/
def speakersPath : String := output_dir ++ "/speakers.csv"

/-- `os.path.join(output_dir, 'session_speakers.csv')`. -/
def relationshipsPath : String := output_dir ++ "/session_speakers.csv"

/-- An abstract file system: file path to content, if the file exists. -/
def FS := String → Option String

/-- Writing a file: the path now maps to the new content. -/
def setFile (fs : FS) (p : String) (c : String) : FS :=
  fun q => if q = p then some c else fs q

/-- The metadata summary step of `main`: the key accesses performed by
the print statements, in source order (`data['metadata']`, then
`metadata['exportedAt']`, then `metadata['counts']['sessions']`,
`['speakers']`, `['sessionSpeakers']`). -/
def metaStep (data : Json) : Except PyError Unit :=
  match data.index "metadata" with
  | .error e => .error e
  | .ok md =>
  match md.index "exportedAt" with
  | .error e => .error e
  | .ok _ =>
  match md.index "counts" with
  | .error e => .error e
  | .ok counts =>
  match counts.index "sessions" with
  | .error e => .error e
  | .ok _ =>
  match counts.index "speakers" with
  | .error e => .error e
  | .ok _ =>
  match counts.index "sessionSpeakers" with
  | .error e => .error e
  | .ok _ => .ok ()

/-- `main` after the JSON document has been loaded: metadata summary,
then the three extract-and-write pairs in fixed order. Returns the file
system after the run together with the uncaught error, if any. The file
system only changes when a `write_csv` call opens its output file. -/
def runMain (data : Json) (fs : FS) : FS × Option PyError :=
  match metaStep data with
  | .error e => (fs, some e)
  | .ok _ =>
  match extract_sessions data with
  | .error e => (fs, some e)
  | .ok sessions =>
  match write_csv session_fields sessions with
  | (c1, some e) => (setFile fs sessionsPath c1, some e)
  | (c1, none) =>
  match extract_speakers data with
  | .error e => (setFile fs sessionsPath c1, some e)
  | .ok speakers =>
  match write_csv speaker_fields speakers with
  | (c2, some e) => (setFile (setFile fs sessionsPath c1) speakersPath c2, some e)
  | (c2, none) =>
  match extract_session_speakers data with
  | .error e => (setFile (setFile fs sessionsPath c1) speakersPath c2, some e)
  | .ok rels =>
  match write_csv relationship_fields rels with
  | (c3, some e) =>
    (setFile (setFile (setFile fs sessionsPath c1) speakersPath c2)
      relationshipsPath c3, some e)
  | (c3, none) =>
    (setFile (setFile (setFile fs sessionsPath c1) speakersPath c2)
      relationshipsPath c3, none)
/-! ### Helper lemmas -/

theorem mapExtract_ok {f : Json → Except PyError FlatRec} :
    ∀ {xs : List Json} {ys : List FlatRec}, mapExtract f xs = .ok ys →
      ys.length = xs.length ∧
      ∀ i (hx : i < xs.length) (hy : i < ys.length),
        f (xs.get ⟨i, hx⟩) = .ok (ys.get ⟨i, hy⟩) := by
  intro xs
  induction xs with
  | nil =>
    intro ys h
    simp only [mapExtract] at h
    cases h
    exact ⟨rfl, by intro i hx; cases hx⟩
  | cons x xs ih =>
    intro ys h
    simp only [mapExtract] at h
    cases hf : f x with
    | error e => rw [hf] at h; cases h
    | ok r =>
      rw [hf] at h
      cases hrest : mapExtract f xs with
      | error e => rw [hrest] at h; cases h
      | ok rs =>
        rw [hrest] at h
        cases h
        obtain ⟨hlen, hget⟩ := ih hrest
        refine ⟨by simp [hlen], ?_⟩
        intro i hx hy
        cases i with
        | zero => simpa using hf
        | succ j =>
          simpa using hget j (by simpa using hx) (by simpa using hy)

theorem mapExtract_mem_ok {f : Json → Except PyError FlatRec}
    {xs : List Json} {ys : List FlatRec} (h : mapExtract f xs = .ok ys) :
    ∀ r ∈ ys, ∃ x ∈ xs, f x = .ok r := by
  induction xs generalizing ys with
  | nil =>
    simp only [mapExtract] at h
    cases h
    intro r hr
    cases hr
  | cons x xs ih =>
    simp only [mapExtract] at h
    cases hf : f x with
    | error e => rw [hf] at h; cases h
    | ok r0 =>
      rw [hf] at h
      cases hrest : mapExtract f xs with
      | error e => rw [hrest] at h; cases h
      | ok rs =>
        rw [hrest] at h
        cases h
        intro r hr
        rcases List.mem_cons.mp hr with h1 | h2
        · exact ⟨x, List.mem_cons_self .., h1 ▸ hf⟩
        · obtain ⟨y, hy, hfy⟩ := ih hrest r h2
          exact ⟨y, List.mem_cons_of_mem _ hy, hfy⟩

theorem index_obj_ok {entries : List (String × Json)} {k : String} {v : Json} :
    Json.index (.obj entries) k = .ok v ↔ entries.lookup k = some v := by
  cases h : entries.lookup k <;> simp [Json.index, h]

theorem extractSessionOne_ok_shape {kvs : List (String × Json)} {r : FlatRec}
    (h : extractSessionOne (.obj kvs) = .ok r) :
    ∃ vid vtitle vstart vend vtags vcreated,
      kvs.lookup "id" = some vid ∧
      kvs.lookup "title" = some vtitle ∧
      kvs.lookup "startTime" = some vstart ∧
      kvs.lookup "endTime" = some vend ∧
      sessionTags (.obj kvs) = .ok vtags ∧
      kvs.lookup "createdAt" = some vcreated ∧
      r = [("id", vid), ("title", vtitle),
           ("description", (kvs.lookup "description").getD (.str "")),
           ("startTime", vstart), ("endTime", vend),
           ("location", (kvs.lookup "location").getD (.str "")),
           ("track", (kvs.lookup "track").getD (.str "")),
           ("level", (kvs.lookup "level").getD (.str "")),
           ("tags", vtags),
           ("sourceUrl", (kvs.lookup "sourceUrl").getD (.str "")),
           ("lastUpdated", (kvs.lookup "lastUpdated").getD (.str "")),
           ("createdAt", vcreated)] := by
  unfold extractSessionOne at h
  repeat' split at h
  all_goals try exact Except.noConfusion h
  injection h with h
  subst h
  simp only [pyGet, Except.ok.injEq, index_obj_ok] at *
  subst_vars
  exact ⟨_, _, _, _, _, _, by assumption, by assumption, by assumption,
    by assumption, by assumption, by assumption, rfl⟩

theorem extractSpeakerOne_ok_shape {kvs : List (String × Json)} {r : FlatRec}
    (h : extractSpeakerOne (.obj kvs) = .ok r) :
    ∃ vid vname vexp vach vcreated,
      kvs.lookup "id" = some vid ∧
      kvs.lookup "name" = some vname ∧
      speakerJoined "expertise" (.obj kvs) = .ok vexp ∧
      speakerJoined "achievements" (.obj kvs) = .ok vach ∧
      kvs.lookup "createdAt" = some vcreated ∧
      r = [("id", vid), ("name", vname),
           ("bio", (kvs.lookup "bio").getD (.str "")),
           ("company", (kvs.lookup "company").getD (.str "")),
           ("role", (kvs.lookup "role").getD (.str "")),
           ("imageUrl", (kvs.lookup "imageUrl").getD (.str "")),
           ("linkedinUrl", (kvs.lookup "linkedinUrl").getD (.str "")),
           ("twitterUrl", (kvs.lookup "twitterUrl").getD (.str "")),
           ("websiteUrl", (kvs.lookup "websiteUrl").getD (.str "")),
           ("profileSummary", (kvs.lookup "profileSummary").getD (.str "")),
           ("companyProfile", (kvs.lookup "companyProfile").getD (.str "")),
           ("expertise", vexp), ("achievements", vach),
           ("lastProfileSync", (kvs.lookup "lastProfileSync").getD (.str "")),
           ("createdAt", vcreated)] := by
  unfold extractSpeakerOne at h
  repeat' split at h
  all_goals try exact Except.noConfusion h
  injection h with h
  subst h
  simp only [pyGet, Except.ok.injEq, index_obj_ok] at *
  subst_vars
  exact ⟨_, _, _, _, _, by assumption, by assumption, by assumption,
    by assumption, by assumption, rfl⟩

theorem extractRelOne_ok_shape {kvs : List (String × Json)} {r : FlatRec}
    (h : extractRelOne (.obj kvs) = .ok r) :
    ∃ vsession vspeaker,
      kvs.lookup "sessionId" = some vsession ∧
      kvs.lookup "speakerId" = some vspeaker ∧
      r = [("sessionId", vsession), ("speakerId", vspeaker)] := by
  unfold extractRelOne at h
  repeat' split at h
  all_goals try exact Except.noConfusion h
  injection h with h
  subst h
  simp only [Except.ok.injEq, index_obj_ok] at *
  exact ⟨_, _, by assumption, by assumption, rfl⟩

/-- The text of the data rows alone, one CSV line per record in order. -/
def rowsText (fieldnames : List String) : List FlatRec → String
  | [] => ""
  | r :: rs => csvLine (rowCells fieldnames r) ++ rowsText fieldnames rs

theorem wrongFields_nil_iff {fieldnames : List String} {r : FlatRec} :
    wrongFields fieldnames r = [] ↔
      ∀ k ∈ r.map Prod.fst, k ∈ fieldnames := by
  unfold wrongFields
  rw [List.filter_eq_nil_iff]
  constructor
  · intro h k hk
    have := h k hk
    simpa [List.elem_iff] using this
  · intro h k hk
    simpa [List.elem_iff] using h k hk

theorem writeRows_ok {fieldnames : List String} {recs : List FlatRec}
    (h : ∀ r ∈ recs, wrongFields fieldnames r = []) :
    writeRows fieldnames recs = (rowsText fieldnames recs, none) := by
  induction recs with
  | nil => rfl
  | cons r rs ih =>
    have hr : wrongFields fieldnames r = [] := h r (List.mem_cons_self ..)
    have hrest := ih fun q hq => h q (List.mem_cons_of_mem _ hq)
    simp [writeRows, hr, hrest, rowsText]

theorem write_csv_ok {fieldnames : List String} {recs : List FlatRec}
    (h : ∀ r ∈ recs, wrongFields fieldnames r = []) :
    write_csv fieldnames recs =
      (csvLine fieldnames ++ rowsText fieldnames recs, none) := by
  unfold write_csv
  rw [writeRows_ok h]

/-- `splitChars` never produces an empty group list. -/
theorem splitChars_ne_nil {sep : Char} : ∀ {cs : List Char}, splitChars sep cs ≠ [] := by
  intro cs
  induction cs with
  | nil => simp [splitChars]
  | cons c rest ih =>
    unfold splitChars
    split
    · simp
    · cases h : splitChars sep rest with
      | nil => exact absurd h ih
      | cons g gs => simp

theorem splitChars_no_sep {sep : Char} {cs : List Char}
    (h : ∀ c ∈ cs, c ≠ sep) : splitChars sep cs = [cs] := by
  induction cs with
  | nil => rfl
  | cons c rest ih =>
    have hc : c ≠ sep := h c (List.mem_cons_self ..)
    have hrest := ih fun d hd => h d (List.mem_cons_of_mem _ hd)
    simp [splitChars, hc, hrest]

theorem splitChars_append_sep {sep : Char} {cs l : List Char}
    (h : ∀ c ∈ cs, c ≠ sep) :
    splitChars sep (cs ++ sep :: l) = cs :: splitChars sep l := by
  induction cs with
  | nil => simp [splitChars]
  | cons c rest ih =>
    have hc : c ≠ sep := h c (List.mem_cons_self ..)
    have hrest := ih fun d hd => h d (List.mem_cons_of_mem _ hd)
    simp only [List.cons_append, splitChars, hc, if_neg, ite_false]
    rw [show rest.append (sep :: l) = rest ++ sep :: l from rfl, hrest]

/-- The join-then-split round trip on character lists: valid when the
list is non-empty and no item contains the separator. -/
theorem pySplit_joinWith {l : List String}
    (hne : l ≠ [])
    (hsep : ∀ s ∈ l, ∀ c ∈ s.data, c ≠ '|') :
    pySplit '|' (joinWith "|" l) = l := by
  induction l with
  | nil => exact absurd rfl hne
  | cons x xs ih =>
    cases xs with
    | nil =>
      show (splitChars '|' x.data).map (fun cs => String.mk cs) = [x]
      rw [splitChars_no_sep (hsep x (List.mem_cons_self ..))]
      simp
    | cons y ys =>
      have hx : ∀ c ∈ x.data, c ≠ '|' := hsep x (List.mem_cons_self ..)
      have hrest : ∀ s ∈ y :: ys, ∀ c ∈ s.data, c ≠ '|' :=
        fun s hs => hsep s (List.mem_cons_of_mem _ hs)
      have ihr := ih (by simp) hrest
      show (splitChars '|' (joinWith "|" (x :: y :: ys)).data).map
        (fun cs => String.mk cs) = x :: y :: ys
      have hdata : (joinWith "|" (x :: y :: ys)).data
          = x.data ++ '|' :: (joinWith "|" (y :: ys)).data := by
        show (x ++ "|" ++ joinWith "|" (y :: ys)).data = _
        simp [String.data_append]
      rw [hdata, splitChars_append_sep hx]
      simpa using ihr

theorem paths_distinct :
    sessionsPath ≠ speakersPath ∧ sessionsPath ≠ relationshipsPath ∧
    speakersPath ≠ relationshipsPath := by
  refine ⟨?_, ?_, ?_⟩ <;> decide

theorem runMain_meta_error {data : Json} {e : PyError} {fs : FS}
    (h : metaStep data = .error e) : runMain data fs = (fs, some e) := by
  simp [runMain, h]

theorem runMain_sessions_error {data : Json} {e : PyError} {fs : FS}
    (hm : metaStep data = .ok ()) (h : extract_sessions data = .error e) :
    runMain data fs = (fs, some e) := by
  simp [runMain, hm, h]

theorem runMain_speakers_error {data : Json} {e : PyError} {fs : FS}
    {sess : List FlatRec} {c1 : String}
    (hm : metaStep data = .ok ())
    (hs : extract_sessions data = .ok sess)
    (hw : write_csv session_fields sess = (c1, none))
    (hsp : extract_speakers data = .error e) :
    runMain data fs = (setFile fs sessionsPath c1, some e) := by
  simp [runMain, hm, hs, hw, hsp]

theorem runMain_success {data : Json} {fs : FS} {g : FS}
    (h : runMain data fs = (g, none)) :
    ∃ sess spk rels c1 c2 c3,
      extract_sessions data = .ok sess ∧
      extract_speakers data = .ok spk ∧
      extract_session_speakers data = .ok rels ∧
      write_csv session_fields sess = (c1, none) ∧
      write_csv speaker_fields spk = (c2, none) ∧
      write_csv relationship_fields rels = (c3, none) ∧
      g = setFile (setFile (setFile fs sessionsPath c1)
            speakersPath c2) relationshipsPath c3 := by
  unfold runMain at h
  repeat' split at h
  all_goals simp only [Prod.mk.injEq] at h
  all_goals try exact absurd h.2 (Option.some_ne_none _)
  exact ⟨_, _, _, _, _, _, by assumption, by assumption, by assumption,
    by assumption, by assumption, by assumption, h.1.symm⟩

theorem strItems_map_str (l : List String) :
    strItems (l.map .str) = .ok l := by
  induction l with
  | nil => rfl
  | cons x xs ih => simp [strItems, ih]

theorem extractSessionOne_ok_keys {x : Json} {r : FlatRec}
    (h : extractSessionOne x = .ok r) : r.map Prod.fst = session_fields := by
  cases x
  case obj kvs =>
    obtain ⟨_, _, _, _, _, _, _, _, _, _, _, _, hr⟩ :=
      extractSessionOne_ok_shape h
    subst hr
    rfl
  all_goals simp [extractSessionOne, Json.index] at h

theorem extractSpeakerOne_ok_keys {x : Json} {r : FlatRec}
    (h : extractSpeakerOne x = .ok r) : r.map Prod.fst = speaker_fields := by
  cases x
  case obj kvs =>
    obtain ⟨_, _, _, _, _, _, _, _, _, _, hr⟩ :=
      extractSpeakerOne_ok_shape h
    subst hr
    rfl
  all_goals simp [extractSpeakerOne, Json.index] at h

theorem extractRelOne_ok_keys {x : Json} {r : FlatRec}
    (h : extractRelOne x = .ok r) : r.map Prod.fst = relationship_fields := by
  cases x
  case obj kvs =>
    obtain ⟨_, _, _, _, hr⟩ := extractRelOne_ok_shape h
    subst hr
    rfl
  all_goals simp [extractRelOne, Json.index] at h

theorem finalFS_eval (fs : FS) (c1 c2 c3 : String) :
    (setFile (setFile (setFile fs sessionsPath c1)
        speakersPath c2) relationshipsPath c3) sessionsPath = some c1 ∧
    (setFile (setFile (setFile fs sessionsPath c1)
        speakersPath c2) relationshipsPath c3) speakersPath = some c2 ∧
    (setFile (setFile (setFile fs sessionsPath c1)
        speakersPath c2) relationshipsPath c3) relationshipsPath = some c3 := by
  obtain ⟨h1, h2, h3⟩ := paths_distinct
  refine ⟨?_, ?_, ?_⟩ <;> simp [setFile, h1, h2, h3, Ne.symm h1]

/-! ### Claim theorems -/

/-- C1 counterexample: a record that lacks every `session_fields` entry
except `id` is written without any error — the writer substitutes a
blank for each missing field instead of failing, so a `SchemaError` is
never raised for a missing field. -/
theorem C1_counterexample :
    (write_csv session_fields [[("id", Json.str "s1")]]).2 = none ∧
    (write_csv session_fields [[("id", Json.str "s1")]]).1 =
      "id,title,description,startTime,endTime,location,track,level,tags,sourceUrl,lastUpdated,createdAt\r\ns1,,,,,,,,,,,\r\n" :=
  ⟨rfl, rfl⟩

/-- C1 (amended): when every record's fields lie within the field list,
the writer succeeds even if records are missing fields: it writes the
header plus one line per record, substituting the `restval` blank (the
empty cell) for each field a record lacks; it fails only when a record
has a field outside the field list. -/
theorem C1_writer_missing_field_blank :
    ∀ (fieldnames : List String) (recs : List FlatRec),
      (∀ r ∈ recs, wrongFields fieldnames r = []) →
      write_csv fieldnames recs =
        (csvLine fieldnames ++ rowsText fieldnames recs, none) ∧
      ∀ r ∈ recs, ∀ k, r.lookup k = none →
        cellStr ((r.lookup k).getD (.str "")) = "" :=
  fun _ _ h =>
    ⟨write_csv_ok h, fun _ _ k hk => by rw [hk]; rfl⟩

/-- C1 witness: the amended theorem applied to the single-record input
of the counterexample. -/
theorem C1_witness :
    write_csv session_fields [[("id", Json.str "s1")]] =
      (csvLine session_fields ++
        rowsText session_fields [[("id", Json.str "s1")]], none) :=
  (C1_writer_missing_field_blank session_fields [[("id", Json.str "s1")]]
    (by decide)).1

/-- The optional scalar session fields named by the spec. -/
def sessionOptionalScalars : List String :=
  ["description", "location", "track", "level", "sourceUrl", "lastUpdated"]

/-- The optional scalar speaker fields named by the spec. -/
def speakerOptionalScalars : List String :=
  ["bio", "company", "role", "imageUrl", "linkedinUrl", "twitterUrl",
   "websiteUrl", "profileSummary", "companyProfile", "lastProfileSync"]

/-- C2 counterexample: a session whose `description` is present with a
null value produces a flat record whose `description` entry is null —
not the empty string the claim asserts. -/
theorem C2_counterexample :
    extractSessionOne (.obj [("id", Json.str "s1"), ("title", Json.str "Talk"),
        ("startTime", Json.str "T0"), ("endTime", Json.str "T1"),
        ("createdAt", Json.str "C0"), ("description", Json.null)]) =
      .ok [("id", Json.str "s1"), ("title", Json.str "Talk"),
        ("description", Json.null), ("startTime", Json.str "T0"),
        ("endTime", Json.str "T1"), ("location", Json.str ""),
        ("track", Json.str ""), ("level", Json.str ""), ("tags", Json.str ""),
        ("sourceUrl", Json.str ""), ("lastUpdated", Json.str ""),
        ("createdAt", Json.str "C0")] ∧
    Json.null ≠ Json.str "" :=
  ⟨rfl, fun h => Json.noConfusion h⟩

/-- C2 (amended): for every optional scalar field of a session or
speaker, an absent field yields the empty string in the flat record,
while a field present with a null value yields null in the flat record;
in both cases the value the writer renders for that column is the empty
string — the column is present and never holds the text null. -/
theorem C2_optional_null_flatrecord :
    (∀ k ∈ sessionOptionalScalars, ∀ (kvs : List (String × Json)) (r : FlatRec),
      extractSessionOne (.obj kvs) = .ok r →
      (kvs.lookup k = none → r.lookup k = some (.str "")) ∧
      (kvs.lookup k = some .null → r.lookup k = some .null) ∧
      ((kvs.lookup k = none ∨ kvs.lookup k = some .null) →
        ∃ v, r.lookup k = some v ∧ cellStr v = "")) ∧
    (∀ k ∈ speakerOptionalScalars, ∀ (kvs : List (String × Json)) (r : FlatRec),
      extractSpeakerOne (.obj kvs) = .ok r →
      (kvs.lookup k = none → r.lookup k = some (.str "")) ∧
      (kvs.lookup k = some .null → r.lookup k = some .null) ∧
      ((kvs.lookup k = none ∨ kvs.lookup k = some .null) →
        ∃ v, r.lookup k = some v ∧ cellStr v = "")) := by
  constructor
  · intro k hk kvs r h
    obtain ⟨vid, vtitle, vstart, vend, vtags, vcreated,
      hid, htitle, hstart, hend, htags, hcreated, hr⟩ :=
      extractSessionOne_ok_shape h
    subst hr
    fin_cases hk <;>
      exact ⟨fun h1 => by simp [List.lookup, h1],
             fun h1 => by simp [List.lookup, h1],
             fun h1 => h1.elim
               (fun h2 => ⟨.str "", by simp [List.lookup, h2], rfl⟩)
               (fun h2 => ⟨.null, by simp [List.lookup, h2], rfl⟩)⟩
  · intro k hk kvs r h
    obtain ⟨vid, vname, vexp, vach, vcreated,
      hid, hname, hexp, hach, hcreated, hr⟩ :=
      extractSpeakerOne_ok_shape h
    subst hr
    fin_cases hk <;>
      exact ⟨fun h1 => by simp [List.lookup, h1],
             fun h1 => by simp [List.lookup, h1],
             fun h1 => h1.elim
               (fun h2 => ⟨.str "", by simp [List.lookup, h2], rfl⟩)
               (fun h2 => ⟨.null, by simp [List.lookup, h2], rfl⟩)⟩

/-- C2 witness: the amended theorem applied to a session with a null
`description`, showing its flat-record entry is null. -/
theorem C2_witness :
    List.lookup "description"
      [("id", Json.str "s1"), ("title", Json.str "Talk"),
       ("description", Json.null), ("startTime", Json.str "T0"),
       ("endTime", Json.str "T1"), ("location", Json.str ""),
       ("track", Json.str ""), ("level", Json.str ""), ("tags", Json.str ""),
       ("sourceUrl", Json.str ""), ("lastUpdated", Json.str ""),
       ("createdAt", Json.str "C0")] = some Json.null :=
  (C2_optional_null_flatrecord.1 "description" (by decide)
    [("id", Json.str "s1"), ("title", Json.str "Talk"),
     ("startTime", Json.str "T0"), ("endTime", Json.str "T1"),
     ("createdAt", Json.str "C0"), ("description", Json.null)]
    _ rfl).2.1 rfl

/-- C3 counterexample: a session lacking `id` makes extraction fail with
`KeyError: id`, and the error value is identical whether the offending
session is first or second in the input — the failure names the missing
key but carries no session position or identifier, contradicting the
claimed error contents. -/
theorem C3_counterexample :
    extract_sessions (.obj [("data", .obj [("sessions",
        .arr [.obj [("title", Json.str "A")]])])]) =
      .error (.keyError "id") ∧
    extract_sessions (.obj [("data", .obj [("sessions",
        .arr [.obj [("id", Json.str "s0"), ("title", Json.str "B"),
                    ("startTime", Json.str "T0"), ("endTime", Json.str "T1"),
                    ("createdAt", Json.str "C0")],
              .obj [("title", Json.str "A")]])])]) =
      .error (.keyError "id") :=
  ⟨rfl, rfl⟩

/-- C3 (amended): a session lacking a required field makes the extractor
fail with a KeyError naming the first missing required key in field
order — but not the session's position — and any session-extraction
failure reaches `main` before `sessions.csv` is opened, so no output
file is written in that run (the file system is unchanged). -/
theorem C3_missing_required_keyerror :
    (∀ kvs : List (String × Json), kvs.lookup "id" = none →
      extractSessionOne (.obj kvs) = .error (.keyError "id")) ∧
    (∀ (kvs : List (String × Json)) vid, kvs.lookup "id" = some vid →
      kvs.lookup "title" = none →
      extractSessionOne (.obj kvs) = .error (.keyError "title")) ∧
    (∀ (kvs : List (String × Json)) vid vtitle,
      kvs.lookup "id" = some vid → kvs.lookup "title" = some vtitle →
      kvs.lookup "startTime" = none →
      extractSessionOne (.obj kvs) = .error (.keyError "startTime")) ∧
    (∀ (kvs : List (String × Json)) vid vtitle vstart,
      kvs.lookup "id" = some vid → kvs.lookup "title" = some vtitle →
      kvs.lookup "startTime" = some vstart → kvs.lookup "endTime" = none →
      extractSessionOne (.obj kvs) = .error (.keyError "endTime")) ∧
    (∀ (kvs : List (String × Json)) vid vtitle vstart vend t,
      kvs.lookup "id" = some vid → kvs.lookup "title" = some vtitle →
      kvs.lookup "startTime" = some vstart → kvs.lookup "endTime" = some vend →
      sessionTags (.obj kvs) = .ok t → kvs.lookup "createdAt" = none →
      extractSessionOne (.obj kvs) = .error (.keyError "createdAt")) ∧
    (∀ (data : Json) (fs : FS) (e : PyError),
      metaStep data = .ok () → extract_sessions data = .error e →
      runMain data fs = (fs, some e)) := by
  refine ⟨?_, ?_, ?_, ?_, ?_, ?_⟩
  · intro kvs h
    simp [extractSessionOne, Json.index, h]
  · intro kvs vid h1 h2
    simp [extractSessionOne, Json.index, pyGet, h1, h2]
  · intro kvs vid vtitle h1 h2 h3
    simp [extractSessionOne, Json.index, pyGet, h1, h2, h3]
  · intro kvs vid vtitle vstart h1 h2 h3 h4
    simp [extractSessionOne, Json.index, pyGet, h1, h2, h3, h4]
  · intro kvs vid vtitle vstart vend t h1 h2 h3 h4 ht h5
    simp [extractSessionOne, Json.index, pyGet, h1, h2, h3, h4, ht, h5]
  · intro data fs e hm he
    exact runMain_sessions_error hm he

/-- C3 witness: the amended theorem applied to a session holding only a
title. -/
theorem C3_witness :
    extractSessionOne (.obj [("title", Json.str "T")]) =
      .error (.keyError "id") :=
  C3_missing_required_keyerror.1 [("title", Json.str "T")] rfl

/-- C4: on a valid document each extractor returns exactly one flat
record per element of its input array, the i-th record extracted from
the i-th element — no sorting, deduplication, filtering, or reordering —
and the writer emits the header line followed by exactly one CSV line
per record, in record order. -/
theorem C4_row_counts_and_order :
    (∀ (data d : Json) (xs : List Json) (recs : List FlatRec),
      Json.index data "data" = .ok d →
      Json.index d "sessions" = .ok (.arr xs) →
      extract_sessions data = .ok recs →
      recs.length = xs.length ∧
      ∀ i (hx : i < xs.length) (hr : i < recs.length),
        extractSessionOne (xs.get ⟨i, hx⟩) = .ok (recs.get ⟨i, hr⟩)) ∧
    (∀ (data d : Json) (xs : List Json) (recs : List FlatRec),
      Json.index data "data" = .ok d →
      Json.index d "speakers" = .ok (.arr xs) →
      extract_speakers data = .ok recs →
      recs.length = xs.length ∧
      ∀ i (hx : i < xs.length) (hr : i < recs.length),
        extractSpeakerOne (xs.get ⟨i, hx⟩) = .ok (recs.get ⟨i, hr⟩)) ∧
    (∀ (data d : Json) (xs : List Json) (recs : List FlatRec),
      Json.index data "data" = .ok d →
      Json.index d "sessionSpeakers" = .ok (.arr xs) →
      extract_session_speakers data = .ok recs →
      recs.length = xs.length ∧
      ∀ i (hx : i < xs.length) (hr : i < recs.length),
        extractRelOne (xs.get ⟨i, hx⟩) = .ok (recs.get ⟨i, hr⟩)) ∧
    (∀ (fieldnames : List String) (recs : List FlatRec),
      (∀ r ∈ recs, wrongFields fieldnames r = []) →
      (write_csv fieldnames recs).1 =
        csvLine fieldnames ++ rowsText fieldnames recs) := by
  refine ⟨?_, ?_, ?_, ?_⟩
  · intro data d xs recs hd hs hext
    rw [show extract_sessions data = mapExtract extractSessionOne xs by
      simp [extract_sessions, hd, hs, Json.toIter]] at hext
    exact mapExtract_ok hext
  · intro data d xs recs hd hs hext
    rw [show extract_speakers data = mapExtract extractSpeakerOne xs by
      simp [extract_speakers, hd, hs, Json.toIter]] at hext
    exact mapExtract_ok hext
  · intro data d xs recs hd hs hext
    rw [show extract_session_speakers data = mapExtract extractRelOne xs by
      simp [extract_session_speakers, hd, hs, Json.toIter]] at hext
    exact mapExtract_ok hext
  · intro fieldnames recs h
    rw [write_csv_ok h]

/-- C4 witness: the session part applied to a one-session document. -/
theorem C4_witness :
    ([[("id", Json.str "a"), ("title", Json.str "b"),
       ("description", Json.str ""), ("startTime", Json.str "c"),
       ("endTime", Json.str "d"), ("location", Json.str ""),
       ("track", Json.str ""), ("level", Json.str ""),
       ("tags", Json.str ""), ("sourceUrl", Json.str ""),
       ("lastUpdated", Json.str ""), ("createdAt", Json.str "e")]] :
      List FlatRec).length =
    ([Json.obj [("id", Json.str "a"), ("title", Json.str "b"),
       ("startTime", Json.str "c"), ("endTime", Json.str "d"),
       ("createdAt", Json.str "e")]]).length :=
  (C4_row_counts_and_order.1
    (.obj [("data", .obj [("sessions",
      .arr [.obj [("id", Json.str "a"), ("title", Json.str "b"),
        ("startTime", Json.str "c"), ("endTime", Json.str "d"),
        ("createdAt", Json.str "e")]])])])
    (.obj [("sessions",
      .arr [.obj [("id", Json.str "a"), ("title", Json.str "b"),
        ("startTime", Json.str "c"), ("endTime", Json.str "d"),
        ("createdAt", Json.str "e")]])])
    [.obj [("id", Json.str "a"), ("title", Json.str "b"),
      ("startTime", Json.str "c"), ("endTime", Json.str "d"),
      ("createdAt", Json.str "e")]]
    [[("id", Json.str "a"), ("title", Json.str "b"),
      ("description", Json.str ""), ("startTime", Json.str "c"),
      ("endTime", Json.str "d"), ("location", Json.str ""),
      ("track", Json.str ""), ("level", Json.str ""),
      ("tags", Json.str ""), ("sourceUrl", Json.str ""),
      ("lastUpdated", Json.str ""), ("createdAt", Json.str "e")]]
    rfl rfl rfl).1

/-- C5: the end-to-end scenario: a document whose `data.sessions` holds
the single session (id s1, title Talk, startTime T0, endTime T1,
createdAt C0, tags [ai, cloud]) produces a `sessions.csv` consisting of
the header row followed by exactly the data row
`s1,Talk,,T0,T1,,,,ai|cloud,,,C0` — absent optional fields become empty
cells and the tags list is joined with the vertical bar — and the run
succeeds. -/
theorem C5_end_to_end_sessions_csv :
    (runMain (.obj [("metadata", .obj [("exportedAt", Json.str "E"),
        ("counts", .obj [("sessions", Json.num 1), ("speakers", Json.num 0),
          ("sessionSpeakers", Json.num 0)])]),
      ("data", .obj [("sessions", .arr [.obj [("id", Json.str "s1"),
          ("title", Json.str "Talk"), ("startTime", Json.str "T0"),
          ("endTime", Json.str "T1"), ("createdAt", Json.str "C0"),
          ("tags", .arr [Json.str "ai", Json.str "cloud"])]]),
        ("speakers", .arr []), ("sessionSpeakers", .arr [])])])
      (fun _ => none)).1 sessionsPath =
      some ("id,title,description,startTime,endTime,location,track,level,tags,sourceUrl,lastUpdated,createdAt\r\ns1,Talk,,T0,T1,,,,ai|cloud,,,C0\r\n") ∧
    (runMain (.obj [("metadata", .obj [("exportedAt", Json.str "E"),
        ("counts", .obj [("sessions", Json.num 1), ("speakers", Json.num 0),
          ("sessionSpeakers", Json.num 0)])]),
      ("data", .obj [("sessions", .arr [.obj [("id", Json.str "s1"),
          ("title", Json.str "Talk"), ("startTime", Json.str "T0"),
          ("endTime", Json.str "T1"), ("createdAt", Json.str "C0"),
          ("tags", .arr [Json.str "ai", Json.str "cloud"])]]),
        ("speakers", .arr []), ("sessionSpeakers", .arr [])])])
      (fun _ => none)).2 = none :=
  ⟨rfl, rfl⟩

/-- C6 counterexample: for the empty tags list — whose items vacuously
contain no vertical bar — the extractor's joined output is the empty
string, and splitting the empty string on the vertical bar yields a
one-element list holding the empty string, not the original empty list:
the round trip is not the identity there. -/
theorem C6_counterexample :
    sessionTags (.obj [("tags", Json.arr [])]) = .ok (.str "") ∧
    pySplit '|' "" = [""] ∧
    ([""] : List String) ≠ [] :=
  ⟨rfl, rfl, by simp⟩

/-- C6 (amended): for every non-empty list of strings none of which
contains the vertical bar, joining the list as the extractor does and
splitting the result on the vertical bar reconstructs the original
ordered list. -/
theorem C6_join_split_roundtrip :
    ∀ l : List String, l ≠ [] → (∀ s ∈ l, ∀ c ∈ s.data, c ≠ '|') →
      pyJoin "|" (.arr (l.map .str)) = .ok (joinWith "|" l) ∧
      pySplit '|' (joinWith "|" l) = l := by
  intro l hne hsep
  constructor
  · simp [pyJoin, Json.toIter, strItems_map_str]
  · exact pySplit_joinWith hne hsep

/-- C6 witness: the round trip applied to the two-tag list of the spec's
end-to-end scenario. -/
theorem C6_witness :
    pyJoin "|" (.arr [Json.str "ai", Json.str "cloud"]) =
      .ok (joinWith "|" ["ai", "cloud"]) ∧
    pySplit '|' (joinWith "|" ["ai", "cloud"]) = ["ai", "cloud"] :=
  C6_join_split_roundtrip ["ai", "cloud"] (by simp) (by decide)

/-- C7: on a successful run the contents of the three output files are a
function of the input document alone: two runs on the same document,
starting from any two prior file-system states (no dependence on time,
randomness, or prior runs), leave identical contents at all three output
paths. -/
theorem C7_deterministic_outputs :
    ∀ (data : Json) (fsa fsb : FS) (ga gb : FS),
      runMain data fsa = (ga, none) → runMain data fsb = (gb, none) →
      ga sessionsPath = gb sessionsPath ∧
      ga speakersPath = gb speakersPath ∧
      ga relationshipsPath = gb relationshipsPath := by
  intro data fsa fsb ga gb ha hb
  obtain ⟨sess, spk, rels, c1, c2, c3, hs, hp, hr, hw1, hw2, hw3, hga⟩ :=
    runMain_success ha
  obtain ⟨sess2, spk2, rels2, c12, c22, c32, hs2, hp2, hr2, hw12, hw22, hw32, hgb⟩ :=
    runMain_success hb
  rw [hs] at hs2
  rw [hp] at hp2
  rw [hr] at hr2
  injection hs2 with hsess
  injection hp2 with hspk
  injection hr2 with hrels
  subst hsess
  subst hspk
  subst hrels
  rw [hw1] at hw12
  rw [hw2] at hw22
  rw [hw3] at hw32
  injection hw12 with hc1 _
  injection hw22 with hc2 _
  injection hw32 with hc3 _
  subst hc1
  subst hc2
  subst hc3
  subst hga
  subst hgb
  obtain ⟨e1, e2, e3⟩ := finalFS_eval fsa c1 c2 c3
  obtain ⟨f1, f2, f3⟩ := finalFS_eval fsb c1 c2 c3
  exact ⟨e1.trans f1.symm, e2.trans f2.symm, e3.trans f3.symm⟩

/-- C7 witness: two runs on the end-to-end document, one on an empty
file system and one where every path already holds stale content,
agree on all three output files. -/
theorem C7_witness :
    ((runMain (.obj [("metadata", .obj [("exportedAt", Json.str "E"),
        ("counts", .obj [("sessions", Json.num 1), ("speakers", Json.num 0),
          ("sessionSpeakers", Json.num 0)])]),
      ("data", .obj [("sessions", .arr [.obj [("id", Json.str "s1"),
          ("title", Json.str "Talk"), ("startTime", Json.str "T0"),
          ("endTime", Json.str "T1"), ("createdAt", Json.str "C0")]]),
        ("speakers", .arr []), ("sessionSpeakers", .arr [])])])
      (fun _ => none)).1 sessionsPath =
     (runMain (.obj [("metadata", .obj [("exportedAt", Json.str "E"),
        ("counts", .obj [("sessions", Json.num 1), ("speakers", Json.num 0),
          ("sessionSpeakers", Json.num 0)])]),
      ("data", .obj [("sessions", .arr [.obj [("id", Json.str "s1"),
          ("title", Json.str "Talk"), ("startTime", Json.str "T0"),
          ("endTime", Json.str "T1"), ("createdAt", Json.str "C0")]]),
        ("speakers", .arr []), ("sessionSpeakers", .arr [])])])
      (fun _ => some "stale")).1 sessionsPath) :=
  (C7_deterministic_outputs
    (.obj [("metadata", .obj [("exportedAt", Json.str "E"),
        ("counts", .obj [("sessions", Json.num 1), ("speakers", Json.num 0),
          ("sessionSpeakers", Json.num 0)])]),
      ("data", .obj [("sessions", .arr [.obj [("id", Json.str "s1"),
          ("title", Json.str "Talk"), ("startTime", Json.str "T0"),
          ("endTime", Json.str "T1"), ("createdAt", Json.str "C0")]]),
        ("speakers", .arr []), ("sessionSpeakers", .arr [])])])
    (fun _ => none) (fun _ => some "stale") _ _ rfl rfl).1

/-- C8: when sessions extraction and writing succeed but speakers
extraction then fails, the run aborts with that error: the
already-written `sessions.csv` remains on disk with its complete
contents, and neither `speakers.csv` nor `session_speakers.csv` is
written in that run (both paths keep whatever the file system held
before). -/
theorem C8_partial_output_preserved :
    ∀ (data : Json) (fs : FS) (sess : List FlatRec) (c1 : String) (e : PyError),
      metaStep data = .ok () →
      extract_sessions data = .ok sess →
      write_csv session_fields sess = (c1, none) →
      extract_speakers data = .error e →
      (runMain data fs).2 = some e ∧
      (runMain data fs).1 sessionsPath = some c1 ∧
      (runMain data fs).1 speakersPath = fs speakersPath ∧
      (runMain data fs).1 relationshipsPath = fs relationshipsPath := by
  intro data fs sess c1 e hm hs hw hsp
  rw [runMain_speakers_error hm hs hw hsp]
  obtain ⟨h1, h2, h3⟩ := paths_distinct
  exact ⟨rfl, by simp [setFile], by simp [setFile, Ne.symm h1],
    by simp [setFile, Ne.symm h2]⟩

/-- C8 witness: a document with an empty sessions array and no
`speakers` key: sessions.csv is written (header only) and keeps its
contents, the run fails with `KeyError: speakers`, and the other two
paths stay empty. -/
theorem C8_witness :
    (runMain (.obj [("metadata", .obj [("exportedAt", Json.str "E"),
        ("counts", .obj [("sessions", Json.num 0), ("speakers", Json.num 0),
          ("sessionSpeakers", Json.num 0)])]),
      ("data", .obj [("sessions", .arr []), ("sessionSpeakers", .arr [])])])
      (fun _ => none)).2 = some (.keyError "speakers") ∧
    (runMain (.obj [("metadata", .obj [("exportedAt", Json.str "E"),
        ("counts", .obj [("sessions", Json.num 0), ("speakers", Json.num 0),
          ("sessionSpeakers", Json.num 0)])]),
      ("data", .obj [("sessions", .arr []), ("sessionSpeakers", .arr [])])])
      (fun _ => none)).1 sessionsPath =
      some "id,title,description,startTime,endTime,location,track,level,tags,sourceUrl,lastUpdated,createdAt\r\n" ∧
    (runMain (.obj [("metadata", .obj [("exportedAt", Json.str "E"),
        ("counts", .obj [("sessions", Json.num 0), ("speakers", Json.num 0),
          ("sessionSpeakers", Json.num 0)])]),
      ("data", .obj [("sessions", .arr []), ("sessionSpeakers", .arr [])])])
      (fun _ => none)).1 speakersPath = (fun _ => none : FS) speakersPath ∧
    (runMain (.obj [("metadata", .obj [("exportedAt", Json.str "E"),
        ("counts", .obj [("sessions", Json.num 0), ("speakers", Json.num 0),
          ("sessionSpeakers", Json.num 0)])]),
      ("data", .obj [("sessions", .arr []), ("sessionSpeakers", .arr [])])])
      (fun _ => none)).1 relationshipsPath =
      (fun _ => none : FS) relationshipsPath :=
  C8_partial_output_preserved
    (.obj [("metadata", .obj [("exportedAt", Json.str "E"),
        ("counts", .obj [("sessions", Json.num 0), ("speakers", Json.num 0),
          ("sessionSpeakers", Json.num 0)])]),
      ("data", .obj [("sessions", .arr []), ("sessionSpeakers", .arr [])])])
    (fun _ => none) []
    "id,title,description,startTime,endTime,location,track,level,tags,sourceUrl,lastUpdated,createdAt\r\n"
    (.keyError "speakers") rfl rfl rfl rfl

theorem extract_sessions_ok_items {data : Json} {recs : List FlatRec}
    (h : extract_sessions data = .ok recs) :
    ∃ items, mapExtract extractSessionOne items = .ok recs := by
  unfold extract_sessions at h
  repeat' split at h
  all_goals try exact Except.noConfusion h
  exact ⟨_, h⟩

theorem extract_speakers_ok_items {data : Json} {recs : List FlatRec}
    (h : extract_speakers data = .ok recs) :
    ∃ items, mapExtract extractSpeakerOne items = .ok recs := by
  unfold extract_speakers at h
  repeat' split at h
  all_goals try exact Except.noConfusion h
  exact ⟨_, h⟩

theorem extract_session_speakers_ok_items {data : Json} {recs : List FlatRec}
    (h : extract_session_speakers data = .ok recs) :
    ∃ items, mapExtract extractRelOne items = .ok recs := by
  unfold extract_session_speakers at h
  repeat' split at h
  all_goals try exact Except.noConfusion h
  exact ⟨_, h⟩

/-- C9: every flat record an extractor produces has exactly the key list
of the field list later passed to the writer for its category (12 keys
for sessions, 15 for speakers, 2 for relationships), in field order with
no extra and no missing keys, so the writer's extra-field error branch
never fires on extractor output. -/
theorem C9_record_keys_match_fields :
    (∀ (data : Json) (recs : List FlatRec), extract_sessions data = .ok recs →
      (∀ r ∈ recs, r.map Prod.fst = session_fields) ∧
      (write_csv session_fields recs).2 = none) ∧
    (∀ (data : Json) (recs : List FlatRec), extract_speakers data = .ok recs →
      (∀ r ∈ recs, r.map Prod.fst = speaker_fields) ∧
      (write_csv speaker_fields recs).2 = none) ∧
    (∀ (data : Json) (recs : List FlatRec),
      extract_session_speakers data = .ok recs →
      (∀ r ∈ recs, r.map Prod.fst = relationship_fields) ∧
      (write_csv relationship_fields recs).2 = none) := by
  refine ⟨?_, ?_, ?_⟩
  · intro data recs h
    have hkeys : ∀ r ∈ recs, r.map Prod.fst = session_fields := by
      obtain ⟨items, hitems⟩ := extract_sessions_ok_items h
      intro r hr
      obtain ⟨x, _, hfx⟩ := mapExtract_mem_ok hitems r hr
      exact extractSessionOne_ok_keys hfx
    refine ⟨hkeys, ?_⟩
    have hwf : ∀ r ∈ recs, wrongFields session_fields r = [] := fun r hr =>
      wrongFields_nil_iff.mpr fun k hk => by rw [hkeys r hr] at hk; exact hk
    rw [write_csv_ok hwf]
  · intro data recs h
    have hkeys : ∀ r ∈ recs, r.map Prod.fst = speaker_fields := by
      obtain ⟨items, hitems⟩ := extract_speakers_ok_items h
      intro r hr
      obtain ⟨x, _, hfx⟩ := mapExtract_mem_ok hitems r hr
      exact extractSpeakerOne_ok_keys hfx
    refine ⟨hkeys, ?_⟩
    have hwf : ∀ r ∈ recs, wrongFields speaker_fields r = [] := fun r hr =>
      wrongFields_nil_iff.mpr fun k hk => by rw [hkeys r hr] at hk; exact hk
    rw [write_csv_ok hwf]
  · intro data recs h
    have hkeys : ∀ r ∈ recs, r.map Prod.fst = relationship_fields := by
      obtain ⟨items, hitems⟩ := extract_session_speakers_ok_items h
      intro r hr
      obtain ⟨x, _, hfx⟩ := mapExtract_mem_ok hitems r hr
      exact extractRelOne_ok_keys hfx
    refine ⟨hkeys, ?_⟩
    have hwf : ∀ r ∈ recs, wrongFields relationship_fields r = [] := fun r hr =>
      wrongFields_nil_iff.mpr fun k hk => by rw [hkeys r hr] at hk; exact hk
    rw [write_csv_ok hwf]

/-- C9 witness: the relationship part applied to a one-pair document:
the writer accepts the extractor's output without the extra-field
error. -/
theorem C9_witness :
    (write_csv relationship_fields
      [[("sessionId", Json.str "s1"), ("speakerId", Json.str "p1")]]).2 =
      none :=
  (C9_record_keys_match_fields.2.2
    (.obj [("data", .obj [("sessionSpeakers",
      .arr [.obj [("sessionId", Json.str "s1"),
        ("speakerId", Json.str "p1")]])])])
    [[("sessionId", Json.str "s1"), ("speakerId", Json.str "p1")]]
    rfl).2

/-- C10: the metadata summary step runs before any extraction, and each
of its key accesses is required: a document lacking `metadata`, or
`metadata.exportedAt`, or `metadata.counts`, or any of
`metadata.counts.sessions` / `speakers` / `sessionSpeakers` makes the
run fail at that step with the corresponding KeyError, leaving the file
system untouched — none of the three output CSV files is written, even
though extraction itself never reads those keys. -/
theorem C10_metadata_required :
    (∀ (kvs : List (String × Json)) (fs : FS),
      kvs.lookup "metadata" = none →
      metaStep (.obj kvs) = .error (.keyError "metadata") ∧
      runMain (.obj kvs) fs = (fs, some (.keyError "metadata"))) ∧
    (∀ (kvs md : List (String × Json)) (fs : FS),
      kvs.lookup "metadata" = some (.obj md) →
      md.lookup "exportedAt" = none →
      metaStep (.obj kvs) = .error (.keyError "exportedAt") ∧
      runMain (.obj kvs) fs = (fs, some (.keyError "exportedAt"))) ∧
    (∀ (kvs md : List (String × Json)) (fs : FS) (vexp : Json),
      kvs.lookup "metadata" = some (.obj md) →
      md.lookup "exportedAt" = some vexp →
      md.lookup "counts" = none →
      metaStep (.obj kvs) = .error (.keyError "counts") ∧
      runMain (.obj kvs) fs = (fs, some (.keyError "counts"))) ∧
    (∀ (kvs md cs : List (String × Json)) (fs : FS) (vexp : Json),
      kvs.lookup "metadata" = some (.obj md) →
      md.lookup "exportedAt" = some vexp →
      md.lookup "counts" = some (.obj cs) →
      cs.lookup "sessions" = none →
      metaStep (.obj kvs) = .error (.keyError "sessions") ∧
      runMain (.obj kvs) fs = (fs, some (.keyError "sessions"))) ∧
    (∀ (kvs md cs : List (String × Json)) (fs : FS) (vexp vs : Json),
      kvs.lookup "metadata" = some (.obj md) →
      md.lookup "exportedAt" = some vexp →
      md.lookup "counts" = some (.obj cs) →
      cs.lookup "sessions" = some vs →
      cs.lookup "speakers" = none →
      metaStep (.obj kvs) = .error (.keyError "speakers") ∧
      runMain (.obj kvs) fs = (fs, some (.keyError "speakers"))) ∧
    (∀ (kvs md cs : List (String × Json)) (fs : FS) (vexp vs vp : Json),
      kvs.lookup "metadata" = some (.obj md) →
      md.lookup "exportedAt" = some vexp →
      md.lookup "counts" = some (.obj cs) →
      cs.lookup "sessions" = some vs →
      cs.lookup "speakers" = some vp →
      cs.lookup "sessionSpeakers" = none →
      metaStep (.obj kvs) = .error (.keyError "sessionSpeakers") ∧
      runMain (.obj kvs) fs = (fs, some (.keyError "sessionSpeakers"))) := by
  refine ⟨?_, ?_, ?_, ?_, ?_, ?_⟩
  · intro kvs fs h1
    have hm : metaStep (.obj kvs) = .error (.keyError "metadata") := by
      simp [metaStep, Json.index, h1]
    exact ⟨hm, runMain_meta_error hm⟩
  · intro kvs md fs h1 h2
    have hm : metaStep (.obj kvs) = .error (.keyError "exportedAt") := by
      simp [metaStep, Json.index, h1, h2]
    exact ⟨hm, runMain_meta_error hm⟩
  · intro kvs md fs vexp h1 h2 h3
    have hm : metaStep (.obj kvs) = .error (.keyError "counts") := by
      simp [metaStep, Json.index, h1, h2, h3]
    exact ⟨hm, runMain_meta_error hm⟩
  · intro kvs md cs fs vexp h1 h2 h3 h4
    have hm : metaStep (.obj kvs) = .error (.keyError "sessions") := by
      simp [metaStep, Json.index, h1, h2, h3, h4]
    exact ⟨hm, runMain_meta_error hm⟩
  · intro kvs md cs fs vexp vs h1 h2 h3 h4 h5
    have hm : metaStep (.obj kvs) = .error (.keyError "speakers") := by
      simp [metaStep, Json.index, h1, h2, h3, h4, h5]
    exact ⟨hm, runMain_meta_error hm⟩
  · intro kvs md cs fs vexp vs vp h1 h2 h3 h4 h5 h6
    have hm : metaStep (.obj kvs) = .error (.keyError "sessionSpeakers") := by
      simp [metaStep, Json.index, h1, h2, h3, h4, h5, h6]
    exact ⟨hm, runMain_meta_error hm⟩

/-- C10 witness: a document with no `metadata` key fails during the
metadata summary with `KeyError: metadata` and writes nothing. -/
theorem C10_witness :
    metaStep (.obj [("data", Json.obj [])]) =
      .error (.keyError "metadata") ∧
    runMain (.obj [("data", Json.obj [])]) (fun _ => none) =
      ((fun _ => none : FS), some (.keyError "metadata")) :=
  C10_metadata_required.1 [("data", Json.obj [])] (fun _ => none) rfl
